import Mathlib

/-!
Shallow embedding of the KnowShowGo Python REST client
(src/python/client.py) and verification of its specification.

Modelling choices:
- JSON values are the inductive `Json`; all Python numbers (int and float)
  are modelled as `Rat`, since the client never computes with numbers and
  only serializes literals onto the wire.
- The remote HTTP server is an arbitrary function `Server` from requests to
  responses; a response carries a status code and an already-parsed JSON
  body (`none` models a body that is not valid JSON, so that a JSON
  decoding failure on a success status can be expressed).
- Python exceptions (`requests.HTTPError` from `raise_for_status`, JSON
  decoding errors, `KeyError` / `TypeError` from subscripting the result)
  become the `Except ClientError` monad.
- Each client method takes the server as an explicit argument and mirrors
  the corresponding Python method line by line; the local Python variable
  `data = ...` of each POST method becomes a separate `*_data` definition.
- Python default arguments are modelled by wrapper definitions
  (`*_omitted`, `*_no_strength`, `*_default_direction`, ...) that apply the
  default values written in the source signature.
-/

/-- JSON values, as produced by parsing a response body or built for a
request body. Objects keep their field order, as Python dicts do. -/
inductive Json where
  | null
  | bool (b : Bool)
  | num (q : Rat)
  | str (s : String)
  | arr (xs : List Json)
  | obj (fields : List (String × Json))

/-- First-match lookup of a key in a JSON object field list, as Python
dict subscripting on a parsed (duplicate-free) object. -/
def lookupField : List (String × Json) → String → Option Json
  | [], _ => none
  | (k, v) :: rest, key => if k = key then some v else lookupField rest key

/-- Errors a client call can surface: an HTTP error status raised by
raise_for_status, a JSON decoding failure of the response body, a missing
key when subscripting the parsed result, or subscripting a non-object. -/
inductive ClientError where
  | httpError (status : Nat)
  | jsonDecodeError
  | keyError (key : String)
  | typeError (key : String)

/-- Python `result[key]` on the parsed JSON result: returns the value when
`result` is an object containing `key`, fails with KeyError when the key is
absent, and fails with TypeError on a non-object. -/
def Json.getField : Json → String → Except ClientError Json
  | Json.obj fields, key =>
    match lookupField fields key with
    | some v => Except.ok v
    | none => Except.error (ClientError.keyError key)
  | _, key => Except.error (ClientError.typeError key)

/-- An outgoing HTTP request: method, full URL, optional query parameters
and optional JSON body, exactly the data `requests.Session.request`
receives from `_request`. -/
structure HttpRequest where
  method : String
  url : String
  params : Option (List (String × String))
  body : Option Json

/-- An incoming HTTP response: status code and parsed JSON body, where
`none` models a body that is not valid JSON. -/
structure HttpResponse where
  status : Nat
  jsonBody : Option Json

/-- The remote service, modelled as an arbitrary mapping from requests to
responses (a mocked server in the tests of the specification). -/
abbrev Server := HttpRequest → HttpResponse

/-- Client state: the stored base URL (the session object carries no
observable state and is omitted). -/
structure KnowShowGoClient where
  base_url : String

/-- Python `s.rstrip(chr(47))`: remove every trailing slash character. -/
def rstripSlash (s : String) : String :=
  String.mk ((s.data.reverse.dropWhile (fun ch => ch == '/')).reverse)

/-- Constructor `KnowShowGoClient.__init__`: stores the base URL with
trailing slashes stripped. -/
def KnowShowGoClient.init (base_url : String) : KnowShowGoClient :=
  KnowShowGoClient.mk (rstripSlash base_url)

/-- Constructor applied to the default base URL of the source signature. -/
def KnowShowGoClient.initDefault : KnowShowGoClient :=
  KnowShowGoClient.init "http://localhost:3000"

/-- URL formation inside `_request`: the full URL is the stored base URL
concatenated with the endpoint path. -/
def requestOf (c : KnowShowGoClient) (method endpoint : String)
    (params : Option (List (String × String))) (body : Option Json) : HttpRequest :=
  HttpRequest.mk method (c.base_url ++ endpoint) params body

/-- Response handling inside `_request`: `response.raise_for_status()`
fails on a 4xx or 5xx status, then `response.json()` parses the body. -/
def handleResponse (r : HttpResponse) : Except ClientError Json :=
  if 400 ≤ r.status ∧ r.status < 600 then
    Except.error (ClientError.httpError r.status)
  else
    match r.jsonBody with
    | none => Except.error ClientError.jsonDecodeError
    | some j => Except.ok j

/-- The `_request` primitive: form the URL, send over the session, raise
for status, parse the body as JSON. -/
def request (c : KnowShowGoClient) (server : Server) (method endpoint : String)
    (params : Option (List (String × String))) (body : Option Json) :
    Except ClientError Json :=
  handleResponse (server (requestOf c method endpoint params body))

/-- Serialization of an optional string parameter: Python None becomes
JSON null. -/
def jsonOfOptStr : Option String → Json
  | none => Json.null
  | some s => Json.str s

/-- Serialization of a string list parameter. -/
def jsonOfStrs (xs : List String) : Json :=
  Json.arr (xs.map Json.str)

/-- Serialization of an optional string list parameter. -/
def jsonOfOptStrs : Option (List String) → Json
  | none => Json.null
  | some xs => jsonOfStrs xs

/-- Serialization of an optional number list parameter (an embedding). -/
def jsonOfOptNums : Option (List Rat) → Json
  | none => Json.null
  | some xs => Json.arr (xs.map Json.num)

/-- Request body of `create_prototype` (the Python local `data`); note
`labels or []` defaults a missing labels list to the empty list. -/
def create_prototype_data (name : String) (description context : Option String)
    (labels : Option (List String)) (embedding : Option (List Rat))
    (parent_prototype_uuids : Option (List String)) : Json :=
  Json.obj [
    ("name", Json.str name),
    ("description", jsonOfOptStr description),
    ("context", jsonOfOptStr context),
    ("labels", jsonOfStrs (labels.getD [])),
    ("embedding", jsonOfOptNums embedding),
    ("parentPrototypeUuids", jsonOfOptStrs parent_prototype_uuids)
  ]

/-- Method `create_prototype`: POST /api/prototypes, return the `uuid`
field of the parsed response. -/
def create_prototype (c : KnowShowGoClient) (server : Server) (name : String)
    (description context : Option String) (labels : Option (List String))
    (embedding : Option (List Rat)) (parent_prototype_uuids : Option (List String)) :
    Except ClientError Json :=
  match request c server "POST" "/api/prototypes" none
      (some (create_prototype_data name description context labels embedding
        parent_prototype_uuids)) with
  | Except.error e => Except.error e
  | Except.ok result => Json.getField result "uuid"

/-- Method `create_prototype` called with every optional parameter
omitted, so each takes the default None of the source signature. -/
def create_prototype_omitted (c : KnowShowGoClient) (server : Server)
    (name : String) : Except ClientError Json :=
  create_prototype c server name none none none none none

/-- Method `get_prototype`: GET /api/prototypes/uuid, return the full
parsed response body. -/
def get_prototype (c : KnowShowGoClient) (server : Server) (uuid : String) :
    Except ClientError Json :=
  request c server "GET" ("/api/prototypes/" ++ uuid) none none

/-- Request body of `create_concept`. -/
def create_concept_data (prototype_uuid : String) (json_obj : Json)
    (embedding : Option (List Rat)) (previous_version_uuid : Option String) : Json :=
  Json.obj [
    ("prototypeUuid", Json.str prototype_uuid),
    ("jsonObj", json_obj),
    ("embedding", jsonOfOptNums embedding),
    ("previousVersionUuid", jsonOfOptStr previous_version_uuid)
  ]

/-- Method `create_concept`: POST /api/concepts, return the `uuid` field. -/
def create_concept (c : KnowShowGoClient) (server : Server) (prototype_uuid : String)
    (json_obj : Json) (embedding : Option (List Rat))
    (previous_version_uuid : Option String) : Except ClientError Json :=
  match request c server "POST" "/api/concepts" none
      (some (create_concept_data prototype_uuid json_obj embedding
        previous_version_uuid)) with
  | Except.error e => Except.error e
  | Except.ok result => Json.getField result "uuid"

/-- Method `get_concept`: GET /api/concepts/uuid, return the full body. -/
def get_concept (c : KnowShowGoClient) (server : Server) (uuid : String) :
    Except ClientError Json :=
  request c server "GET" ("/api/concepts/" ++ uuid) none none

/-- Request body of `search_concepts`. -/
def search_concepts_data (query : String) (top_k : Rat) (similarity_threshold : Rat)
    (prototype_filter : Option String) : Json :=
  Json.obj [
    ("query", Json.str query),
    ("topK", Json.num top_k),
    ("similarityThreshold", Json.num similarity_threshold),
    ("prototypeFilter", jsonOfOptStr prototype_filter)
  ]

/-- Method `search_concepts`: POST /api/concepts/search, return the
`results` field of the parsed response. -/
def search_concepts (c : KnowShowGoClient) (server : Server) (query : String)
    (top_k : Rat) (similarity_threshold : Rat) (prototype_filter : Option String) :
    Except ClientError Json :=
  match request c server "POST" "/api/concepts/search" none
      (some (search_concepts_data query top_k similarity_threshold prototype_filter)) with
  | Except.error e => Except.error e
  | Except.ok result => Json.getField result "results"

/-- Method `search_concepts` called with only query and top_k supplied:
similarity_threshold and prototype_filter take the defaults 0.7 and None
of the source signature. -/
def search_concepts_with_top_k (c : KnowShowGoClient) (server : Server)
    (query : String) (top_k : Rat) : Except ClientError Json :=
  search_concepts c server query top_k (7 / 10) none

/-- Request body of `add_association`. -/
def add_association_data (from_concept_uuid to_concept_uuid relation_type : String)
    (strength : Rat) : Json :=
  Json.obj [
    ("fromConceptUuid", Json.str from_concept_uuid),
    ("toConceptUuid", Json.str to_concept_uuid),
    ("relationType", Json.str relation_type),
    ("strength", Json.num strength)
  ]

/-- Method `add_association`: POST /api/associations; the parsed response
is discarded and the method returns no value. -/
def add_association (c : KnowShowGoClient) (server : Server)
    (from_concept_uuid to_concept_uuid relation_type : String) (strength : Rat) :
    Except ClientError Unit :=
  match request c server "POST" "/api/associations" none
      (some (add_association_data from_concept_uuid to_concept_uuid relation_type
        strength)) with
  | Except.error e => Except.error e
  | Except.ok _ => Except.ok ()

/-- Method `add_association` called without a strength argument: strength
takes the default 1.0 of the source signature. -/
def add_association_no_strength (c : KnowShowGoClient) (server : Server)
    (from_concept_uuid to_concept_uuid relation_type : String) :
    Except ClientError Unit :=
  add_association c server from_concept_uuid to_concept_uuid relation_type 1

/-- Method `get_associations`: GET /api/associations/uuid with query
parameter `direction`, return the `associations` field. -/
def get_associations (c : KnowShowGoClient) (server : Server) (uuid direction : String) :
    Except ClientError Json :=
  match request c server "GET" ("/api/associations/" ++ uuid)
      (some [("direction", direction)]) none with
  | Except.error e => Except.error e
  | Except.ok result => Json.getField result "associations"

/-- Method `get_associations` called without a direction argument:
direction takes the default "both" of the source signature. -/
def get_associations_default_direction (c : KnowShowGoClient) (server : Server)
    (uuid : String) : Except ClientError Json :=
  get_associations c server uuid "both"

/-- Request body of `create_node_with_document`; `tags or []`,
`metadata or` the empty object and `associations or []` default the
missing containers. -/
def create_node_with_document_data (label : String) (summary : Option String)
    (tags : Option (List String)) (metadata : Option Json)
    (associations : Option (List Json)) (prototype_uuid : Option String) : Json :=
  Json.obj [
    ("label", Json.str label),
    ("summary", jsonOfOptStr summary),
    ("tags", jsonOfStrs (tags.getD [])),
    ("metadata", metadata.getD (Json.obj [])),
    ("associations", Json.arr (associations.getD [])),
    ("prototypeUuid", jsonOfOptStr prototype_uuid)
  ]

/-- Method `create_node_with_document`: POST /api/nodes, return the
`uuid` field. -/
def create_node_with_document (c : KnowShowGoClient) (server : Server) (label : String)
    (summary : Option String) (tags : Option (List String)) (metadata : Option Json)
    (associations : Option (List Json)) (prototype_uuid : Option String) :
    Except ClientError Json :=
  match request c server "POST" "/api/nodes" none
      (some (create_node_with_document_data label summary tags metadata associations
        prototype_uuid)) with
  | Except.error e => Except.error e
  | Except.ok result => Json.getField result "uuid"

/-- Method `create_node_with_document` with every optional parameter
omitted. -/
def create_node_with_document_omitted (c : KnowShowGoClient) (server : Server)
    (label : String) : Except ClientError Json :=
  create_node_with_document c server label none none none none none

/-- Method `update_node_embedding`: POST /api/nodes/uuid/embedding with no
body; the parsed response is discarded. -/
def update_node_embedding (c : KnowShowGoClient) (server : Server) (uuid : String) :
    Except ClientError Unit :=
  match request c server "POST" ("/api/nodes/" ++ uuid ++ "/embedding") none none with
  | Except.error e => Except.error e
  | Except.ok _ => Except.ok ()

/-- Request body of `register_prototype`; `options or` the empty object
defaults a missing options mapping. -/
def register_prototype_data (prototype_name : String) (options : Option Json) : Json :=
  Json.obj [
    ("prototypeName", Json.str prototype_name),
    ("options", options.getD (Json.obj []))
  ]

/-- Method `register_prototype`: POST /api/orm/register; the parsed
response is discarded. -/
def register_prototype (c : KnowShowGoClient) (server : Server)
    (prototype_name : String) (options : Option Json) : Except ClientError Unit :=
  match request c server "POST" "/api/orm/register" none
      (some (register_prototype_data prototype_name options)) with
  | Except.error e => Except.error e
  | Except.ok _ => Except.ok ()

/-- Request body of `create_instance`: the properties mapping wrapped
under a single `properties` key. -/
def create_instance_data (properties : Json) : Json :=
  Json.obj [("properties", properties)]

/-- Method `create_instance`: POST /api/orm/name/create, return the full
parsed response body. -/
def create_instance (c : KnowShowGoClient) (server : Server) (prototype_name : String)
    (properties : Json) : Except ClientError Json :=
  request c server "POST" ("/api/orm/" ++ prototype_name ++ "/create") none
    (some (create_instance_data properties))

/-- Method `get_instance`: GET /api/orm/name/uuid, return the full body. -/
def get_instance (c : KnowShowGoClient) (server : Server) (prototype_name uuid : String) :
    Except ClientError Json :=
  request c server "GET" ("/api/orm/" ++ prototype_name ++ "/" ++ uuid) none none

/-- Method `health_check`: GET /health, return the full body. -/
def health_check (c : KnowShowGoClient) (server : Server) : Except ClientError Json :=
  request c server "GET" "/health" none none

/-- On a success status with a valid JSON body, `_request` returns the
parsed body. -/
lemma request_ok (c : KnowShowGoClient) (server : Server) (m e : String)
    (p : Option (List (String × String))) (b : Option Json) (r : HttpResponse)
    (j : Json) (hr : server (requestOf c m e p b) = r) (hs : r.status < 400)
    (hb : r.jsonBody = some j) : request c server m e p b = Except.ok j := by
  unfold request handleResponse
  rw [hr, if_neg (by omega), hb]

/-- On a 4xx or 5xx status, `_request` fails with that status. -/
lemma request_err (c : KnowShowGoClient) (server : Server) (m e : String)
    (p : Option (List (String × String))) (b : Option Json) (r : HttpResponse)
    (hr : server (requestOf c m e p b) = r) (h4 : 400 ≤ r.status)
    (h6 : r.status < 600) :
    request c server m e p b = Except.error (ClientError.httpError r.status) := by
  unfold request handleResponse
  rw [hr, if_pos ⟨h4, h6⟩]

/-- On a success status whose body is not valid JSON, `_request` fails
with a JSON decoding error. -/
lemma request_badjson (c : KnowShowGoClient) (server : Server) (m e : String)
    (p : Option (List (String × String))) (b : Option Json) (r : HttpResponse)
    (hr : server (requestOf c m e p b) = r) (hs : r.status < 400)
    (hb : r.jsonBody = none) :
    request c server m e p b = Except.error ClientError.jsonDecodeError := by
  unfold request handleResponse
  rw [hr, if_neg (by omega), hb]

/-- The head of a dropWhile result does not satisfy the predicate. -/
lemma dropWhile_head_not {α : Type} (p : α → Bool) :
    ∀ (l : List α) (c : α), (List.dropWhile p l).head? = some c → p c = false := by
  intro l
  induction l with
  | nil =>
    intro c h
    simp [List.dropWhile] at h
  | cons a t ih =>
    intro c h
    by_cases hp : p a
    · rw [List.dropWhile_cons, if_pos hp] at h
      exact ih c h
    · rw [List.dropWhile_cons, if_neg hp] at h
      simp at h
      rw [← h]
      exact Bool.not_eq_true (p a) |>.mp hp

/-- Stripping trailing slashes never leaves a trailing slash. -/
lemma rstripSlash_no_trailing (s : String) (ch : Char) :
    (rstripSlash s).data.getLast? = some ch → ch ≠ '/' := by
  intro h hc
  unfold rstripSlash at h
  rw [show (String.mk ((s.data.reverse.dropWhile fun c => c == '/').reverse)).data
      = (s.data.reverse.dropWhile fun c => c == '/').reverse from rfl,
    List.getLast?_reverse] at h
  have hp := dropWhile_head_not (fun c => c == '/') s.data.reverse ch h
  rw [hc] at hp
  simp at hp

/-- The original string is the stripped string followed by some run of
slashes. -/
lemma rstripSlash_append (s : String) :
    ∃ n : Nat, s = rstripSlash s ++ String.mk (List.replicate n '/') := by
  refine ⟨(s.data.reverse.takeWhile fun c => c == '/').length, ?_⟩
  have htake : (s.data.reverse.takeWhile fun c => c == '/')
      = List.replicate (s.data.reverse.takeWhile fun c => c == '/').length '/' := by
    apply List.eq_replicate_of_mem
    intro b hb
    have := List.mem_takeWhile_imp hb
    simpa using this
  have hdata : s.data = (s.data.reverse.dropWhile fun c => c == '/').reverse
      ++ List.replicate (s.data.reverse.takeWhile fun c => c == '/').length '/' := by
    conv_lhs => rw [← List.reverse_reverse s.data,
      ← List.takeWhile_append_dropWhile (fun c => c == '/') s.data.reverse]
    rw [List.reverse_append]
    congr 1
    rw [← List.reverse_replicate, ← htake]
  calc s = String.mk s.data := rfl
    _ = String.mk ((s.data.reverse.dropWhile fun c => c == '/').reverse
        ++ List.replicate (s.data.reverse.takeWhile fun c => c == '/').length '/') := by
      rw [← hdata]
    _ = rstripSlash s ++ String.mk
        (List.replicate (s.data.reverse.takeWhile fun c => c == '/').length '/') := rfl

/-- A mocked server that answers every request with the same response. -/
def serverConst (r : HttpResponse) : Server := fun _ => r

/-- A sample client used by the concrete witnesses. -/
def exClient : KnowShowGoClient := KnowShowGoClient.init "http://example.com"

/-- A success response whose body is an object with a uuid field. -/
def okUuidResp : HttpResponse :=
  HttpResponse.mk 200 (some (Json.obj [("uuid", Json.str "X")]))

/-- A success response whose body is an object with a results field. -/
def okResultsResp : HttpResponse :=
  HttpResponse.mk 200 (some (Json.obj [("results", Json.arr [])]))

/-- A success response whose body is an object with an associations
field. -/
def okAssocResp : HttpResponse :=
  HttpResponse.mk 200 (some (Json.obj [("associations", Json.arr [])]))

/-- A success response whose body is an empty object. -/
def okEmptyResp : HttpResponse := HttpResponse.mk 200 (some (Json.obj []))

/-- A 404 response. -/
def notFoundResp : HttpResponse := HttpResponse.mk 404 none

/-- A success response whose body is not valid JSON. -/
def badJsonResp : HttpResponse := HttpResponse.mk 200 none

/-- Claim C1: for every create-style method (create_prototype,
create_concept, create_node_with_document), if the HTTP exchange succeeds
and the parsed JSON response is a mapping containing the field uuid with
value x, the method returns exactly x. -/
theorem uuid_field_returned (c : KnowShowGoClient) (server : Server)
    (name : String) (description context : Option String)
    (labels : Option (List String)) (embedding : Option (List Rat))
    (parent_prototype_uuids : Option (List String))
    (prototype_uuid : String) (json_obj : Json) (embedding2 : Option (List Rat))
    (previous_version_uuid : Option String)
    (label : String) (summary : Option String) (tags : Option (List String))
    (metadata : Option Json) (associations : Option (List Json))
    (prototype_uuid2 : Option String)
    (r1 r2 r3 : HttpResponse) (j1 j2 j3 x1 x2 x3 : Json)
    (hr1 : server (requestOf c "POST" "/api/prototypes" none
      (some (create_prototype_data name description context labels embedding
        parent_prototype_uuids))) = r1)
    (hs1 : r1.status < 400) (hb1 : r1.jsonBody = some j1)
    (hu1 : Json.getField j1 "uuid" = Except.ok x1)
    (hr2 : server (requestOf c "POST" "/api/concepts" none
      (some (create_concept_data prototype_uuid json_obj embedding2
        previous_version_uuid))) = r2)
    (hs2 : r2.status < 400) (hb2 : r2.jsonBody = some j2)
    (hu2 : Json.getField j2 "uuid" = Except.ok x2)
    (hr3 : server (requestOf c "POST" "/api/nodes" none
      (some (create_node_with_document_data label summary tags metadata associations
        prototype_uuid2))) = r3)
    (hs3 : r3.status < 400) (hb3 : r3.jsonBody = some j3)
    (hu3 : Json.getField j3 "uuid" = Except.ok x3) :
    create_prototype c server name description context labels embedding
      parent_prototype_uuids = Except.ok x1
    ∧ create_concept c server prototype_uuid json_obj embedding2
      previous_version_uuid = Except.ok x2
    ∧ create_node_with_document c server label summary tags metadata associations
      prototype_uuid2 = Except.ok x3 := by
  refine ⟨?_, ?_, ?_⟩
  · unfold create_prototype
    rw [request_ok c server _ _ _ _ r1 j1 hr1 hs1 hb1]
    exact hu1
  · unfold create_concept
    rw [request_ok c server _ _ _ _ r2 j2 hr2 hs2 hb2]
    exact hu2
  · unfold create_node_with_document
    rw [request_ok c server _ _ _ _ r3 j3 hr3 hs3 hb3]
    exact hu3

/-- Concrete witness for claim C1: against a mocked server answering with
status 200 and body containing uuid X, each create method returns X. -/
theorem uuid_field_returned_witness :
    create_prototype exClient (serverConst okUuidResp) "n" none none none none none
      = Except.ok (Json.str "X")
    ∧ create_concept exClient (serverConst okUuidResp) "pu" (Json.obj []) none none
      = Except.ok (Json.str "X")
    ∧ create_node_with_document exClient (serverConst okUuidResp) "lbl" none none none
      none none = Except.ok (Json.str "X") := by
  apply uuid_field_returned <;> first | rfl | decide

/-- Claim C2: for every get-style method (get_prototype, get_concept,
get_instance, health_check), if the HTTP exchange succeeds and the
response body parses to a JSON mapping, the method returns exactly that
mapping, unmodified. -/
theorem get_methods_return_full_body (c : KnowShowGoClient) (server : Server)
    (puuid cuuid pname iuuid : String)
    (m1 m2 m3 m4 : List (String × Json)) (r1 r2 r3 r4 : HttpResponse)
    (hr1 : server (requestOf c "GET" ("/api/prototypes/" ++ puuid) none none) = r1)
    (hs1 : r1.status < 400) (hb1 : r1.jsonBody = some (Json.obj m1))
    (hr2 : server (requestOf c "GET" ("/api/concepts/" ++ cuuid) none none) = r2)
    (hs2 : r2.status < 400) (hb2 : r2.jsonBody = some (Json.obj m2))
    (hr3 : server (requestOf c "GET" ("/api/orm/" ++ pname ++ "/" ++ iuuid) none none)
      = r3)
    (hs3 : r3.status < 400) (hb3 : r3.jsonBody = some (Json.obj m3))
    (hr4 : server (requestOf c "GET" "/health" none none) = r4)
    (hs4 : r4.status < 400) (hb4 : r4.jsonBody = some (Json.obj m4)) :
    get_prototype c server puuid = Except.ok (Json.obj m1)
    ∧ get_concept c server cuuid = Except.ok (Json.obj m2)
    ∧ get_instance c server pname iuuid = Except.ok (Json.obj m3)
    ∧ health_check c server = Except.ok (Json.obj m4) :=
  ⟨request_ok c server _ _ _ _ r1 _ hr1 hs1 hb1,
    request_ok c server _ _ _ _ r2 _ hr2 hs2 hb2,
    request_ok c server _ _ _ _ r3 _ hr3 hs3 hb3,
    request_ok c server _ _ _ _ r4 _ hr4 hs4 hb4⟩

/-- Concrete witness for claim C2: against a mocked server answering with
status 200 and an empty-object body, each get-style method returns that
object. -/
theorem get_methods_return_full_body_witness :
    get_prototype exClient (serverConst okEmptyResp) "u1" = Except.ok (Json.obj [])
    ∧ get_concept exClient (serverConst okEmptyResp) "u2" = Except.ok (Json.obj [])
    ∧ get_instance exClient (serverConst okEmptyResp) "Person" "u3"
      = Except.ok (Json.obj [])
    ∧ health_check exClient (serverConst okEmptyResp) = Except.ok (Json.obj []) := by
  apply get_methods_return_full_body <;> first | rfl | decide

/-- Claim C3: a 4xx or 5xx response status makes the call fail with an
error carrying that status (no retry, no recovery, never an empty
mapping); otherwise the body is parsed as JSON and becomes the result; in
particular a 404 to get_prototype fails with status 404. -/
theorem http_error_propagation (c : KnowShowGoClient) (server : Server)
    (m e uuid : String) (p : Option (List (String × String))) (bd : Option Json)
    (j : Json) (r r404 : HttpResponse)
    (hr : server (requestOf c m e p bd) = r)
    (hr404 : server (requestOf c "GET" ("/api/prototypes/" ++ uuid) none none) = r404) :
    (400 ≤ r.status → r.status < 600 →
      request c server m e p bd = Except.error (ClientError.httpError r.status))
    ∧ (r.status < 400 → r.jsonBody = some j → request c server m e p bd = Except.ok j)
    ∧ (r404.status = 404 →
      get_prototype c server uuid = Except.error (ClientError.httpError 404)) := by
  refine ⟨?_, ?_, ?_⟩
  · intro h4 h6
    exact request_err c server m e p bd r hr h4 h6
  · intro hs hb
    exact request_ok c server m e p bd r j hr hs hb
  · intro h404
    have h := request_err c server "GET" ("/api/prototypes/" ++ uuid) none none r404
      hr404 (by omega) (by omega)
    rw [h404] at h
    exact h

/-- Concrete witness for claim C3: a mocked 404 makes get_prototype and
the request primitive fail with status 404, and a mocked 200 with a JSON
body yields that body. -/
theorem http_error_propagation_witness :
    request exClient (serverConst notFoundResp) "GET" "/x" none none
      = Except.error (ClientError.httpError 404)
    ∧ get_prototype exClient (serverConst notFoundResp) "missing"
      = Except.error (ClientError.httpError 404)
    ∧ request exClient (serverConst okEmptyResp) "GET" "/x" none none
      = Except.ok (Json.obj []) := by
  have h1 := http_error_propagation exClient (serverConst notFoundResp) "GET" "/x"
    "missing" none none Json.null notFoundResp notFoundResp rfl rfl
  have h2 := http_error_propagation exClient (serverConst okEmptyResp) "GET" "/x"
    "missing" none none (Json.obj []) okEmptyResp okEmptyResp rfl rfl
  exact ⟨h1.1 (by decide) (by decide), h1.2.2 rfl, h2.2.1 (by decide) rfl⟩

/-- Claim C4: search_concepts with top_k 5 and the other parameters left
at their defaults sends the JSON body with query, topK 5,
similarityThreshold 0.7 and prototypeFilter null to POST
/api/concepts/search, and returns the results field of the response
unmodified. -/
theorem search_concepts_contract (c : KnowShowGoClient) (server : Server) (q : String)
    (r : HttpResponse) (j res : Json)
    (hr : server (requestOf c "POST" "/api/concepts/search" none
      (some (Json.obj [("query", Json.str q), ("topK", Json.num 5),
        ("similarityThreshold", Json.num (7 / 10)),
        ("prototypeFilter", Json.null)]))) = r)
    (hs : r.status < 400) (hb : r.jsonBody = some j)
    (hres : Json.getField j "results" = Except.ok res) :
    search_concepts_data q 5 (7 / 10) none
      = Json.obj [("query", Json.str q), ("topK", Json.num 5),
        ("similarityThreshold", Json.num (7 / 10)), ("prototypeFilter", Json.null)]
    ∧ search_concepts_with_top_k c server q 5 = Except.ok res := by
  constructor
  · rfl
  · have hr2 : server (requestOf c "POST" "/api/concepts/search" none
        (some (search_concepts_data q 5 (7 / 10) none))) = r := hr
    unfold search_concepts_with_top_k search_concepts
    rw [request_ok c server _ _ _ _ r j hr2 hs hb]
    exact hres

/-- Concrete witness for claim C4: a mocked server answering with an
empty results array makes search_concepts return that array. -/
theorem search_concepts_contract_witness :
    search_concepts_data "q" 5 (7 / 10) none
      = Json.obj [("query", Json.str "q"), ("topK", Json.num 5),
        ("similarityThreshold", Json.num (7 / 10)), ("prototypeFilter", Json.null)]
    ∧ search_concepts_with_top_k exClient (serverConst okResultsResp) "q" 5
      = Except.ok (Json.arr []) := by
  apply search_concepts_contract <;> first | rfl | decide

/-- Claim C5: add_association called without a strength argument sends a
body whose strength field is 1.0 to POST /api/associations, and the
method returns no value beyond error propagation. -/
theorem add_association_default_contract (c : KnowShowGoClient) (server : Server)
    (a b rel : String) (j : Json) (r : HttpResponse)
    (hr : server (requestOf c "POST" "/api/associations" none
      (some (add_association_data a b rel 1))) = r) :
    Json.getField (add_association_data a b rel 1) "strength"
      = Except.ok (Json.num 1)
    ∧ add_association_no_strength c server a b rel = add_association c server a b rel 1
    ∧ (r.status < 400 → r.jsonBody = some j →
      add_association_no_strength c server a b rel = Except.ok ()) := by
  refine ⟨rfl, rfl, ?_⟩
  intro hs hb
  unfold add_association_no_strength add_association
  rw [request_ok c server _ _ _ _ r j hr hs hb]

/-- Concrete witness for claim C5: against a mocked 200 server the
defaulted add_association call succeeds with the unit value, and the
default body carries strength 1. -/
theorem add_association_default_contract_witness :
    Json.getField (add_association_data "a" "b" "relatesTo" 1) "strength"
      = Except.ok (Json.num 1)
    ∧ add_association_no_strength exClient (serverConst okEmptyResp) "a" "b" "relatesTo"
      = add_association exClient (serverConst okEmptyResp) "a" "b" "relatesTo" 1
    ∧ add_association_no_strength exClient (serverConst okEmptyResp) "a" "b" "relatesTo"
      = Except.ok () := by
  have h := add_association_default_contract exClient (serverConst okEmptyResp) "a" "b"
    "relatesTo" (Json.obj []) okEmptyResp rfl
  exact ⟨h.1, h.2.1, h.2.2 (by decide) rfl⟩

/-- Claim C6: get_associations issues GET /api/associations/uuid with the
query parameter direction set to the given string, unvalidated (any
string passes through), returns the associations field of the response,
and the default direction is both. -/
theorem get_associations_contract (c : KnowShowGoClient) (server : Server)
    (uuid d : String) (r : HttpResponse) (j assoc : Json)
    (hr : server (requestOf c "GET" ("/api/associations/" ++ uuid)
      (some [("direction", d)]) none) = r)
    (hs : r.status < 400) (hb : r.jsonBody = some j)
    (ha : Json.getField j "associations" = Except.ok assoc) :
    get_associations c server uuid d = Except.ok assoc
    ∧ get_associations_default_direction c server uuid
      = get_associations c server uuid "both" := by
  constructor
  · unfold get_associations
    rw [request_ok c server _ _ _ _ r j hr hs hb]
    exact ha
  · rfl

/-- Concrete witness for claim C6: a direction string outside the
enumerated set passes through unchecked and the associations field is
returned. -/
theorem get_associations_contract_witness :
    get_associations exClient (serverConst okAssocResp) "u" "weird"
      = Except.ok (Json.arr [])
    ∧ get_associations_default_direction exClient (serverConst okAssocResp) "u"
      = get_associations exClient (serverConst okAssocResp) "u" "both" := by
  apply get_associations_contract <;> first | rfl | decide

/-- Claim C7: the constructor stores the base URL with trailing slashes
stripped (the stored value never ends in a slash and the original is the
stored value followed by a run of slashes), every request URL is the
stored base concatenated with the endpoint path, and the default base URL
is the local development endpoint. -/
theorem base_url_normalization (b : String) (c : KnowShowGoClient) (m e : String)
    (p : Option (List (String × String))) (bd : Option Json) :
    (∀ ch : Char, (KnowShowGoClient.init b).base_url.data.getLast? = some ch → ch ≠ '/')
    ∧ (∃ n : Nat, b = (KnowShowGoClient.init b).base_url
      ++ String.mk (List.replicate n '/'))
    ∧ (requestOf c m e p bd).url = c.base_url ++ e
    ∧ KnowShowGoClient.initDefault.base_url = "http://localhost:3000" := by
  refine ⟨?_, ?_, rfl, rfl⟩
  · intro ch h
    exact rstripSlash_no_trailing b ch h
  · exact rstripSlash_append b

/-- Concrete witness for claim C7: a base URL with three trailing slashes
is stored stripped, the URL of a request is formed by concatenation, and
the default base URL is preserved. -/
theorem base_url_normalization_witness :
    ('x' ≠ '/')
    ∧ (∃ n : Nat, "http://x///" = (KnowShowGoClient.init "http://x///").base_url
      ++ String.mk (List.replicate n '/'))
    ∧ (requestOf exClient "GET" "/health" none none).url = exClient.base_url ++ "/health"
    ∧ KnowShowGoClient.initDefault.base_url = "http://localhost:3000" := by
  have h := base_url_normalization "http://x///" exClient "GET" "/health" none none
  exact ⟨h.1 'x' rfl, h.2.1, h.2.2.1, h.2.2.2⟩

/-- Claim C8: when the optional parameters of create_prototype or
create_node_with_document are omitted, each omitted field appears in the
outgoing body as null or as its empty-container default (labels, tags and
associations as empty arrays, metadata as an empty object), and the call
still goes through without any client-side failure. -/
theorem omitted_optionals_defaults (c : KnowShowGoClient) (server : Server)
    (name label : String) (r1 r2 : HttpResponse) (j1 j2 x1 x2 : Json)
    (hr1 : server (requestOf c "POST" "/api/prototypes" none
      (some (create_prototype_data name none none none none none))) = r1)
    (hs1 : r1.status < 400) (hb1 : r1.jsonBody = some j1)
    (hu1 : Json.getField j1 "uuid" = Except.ok x1)
    (hr2 : server (requestOf c "POST" "/api/nodes" none
      (some (create_node_with_document_data label none none none none none))) = r2)
    (hs2 : r2.status < 400) (hb2 : r2.jsonBody = some j2)
    (hu2 : Json.getField j2 "uuid" = Except.ok x2) :
    create_prototype_data name none none none none none
      = Json.obj [("name", Json.str name), ("description", Json.null),
        ("context", Json.null), ("labels", Json.arr []), ("embedding", Json.null),
        ("parentPrototypeUuids", Json.null)]
    ∧ create_node_with_document_data label none none none none none
      = Json.obj [("label", Json.str label), ("summary", Json.null),
        ("tags", Json.arr []), ("metadata", Json.obj []),
        ("associations", Json.arr []), ("prototypeUuid", Json.null)]
    ∧ create_prototype_omitted c server name = Except.ok x1
    ∧ create_node_with_document_omitted c server label = Except.ok x2 := by
  refine ⟨rfl, rfl, ?_, ?_⟩
  · unfold create_prototype_omitted create_prototype
    rw [request_ok c server _ _ _ _ r1 j1 hr1 hs1 hb1]
    exact hu1
  · unfold create_node_with_document_omitted create_node_with_document
    rw [request_ok c server _ _ _ _ r2 j2 hr2 hs2 hb2]
    exact hu2

/-- Concrete witness for claim C8: with every optional parameter omitted
both creates succeed against a mocked 200 server and their bodies carry
the documented defaults. -/
theorem omitted_optionals_defaults_witness :
    create_prototype_data "Person" none none none none none
      = Json.obj [("name", Json.str "Person"), ("description", Json.null),
        ("context", Json.null), ("labels", Json.arr []), ("embedding", Json.null),
        ("parentPrototypeUuids", Json.null)]
    ∧ create_node_with_document_data "Doc" none none none none none
      = Json.obj [("label", Json.str "Doc"), ("summary", Json.null),
        ("tags", Json.arr []), ("metadata", Json.obj []),
        ("associations", Json.arr []), ("prototypeUuid", Json.null)]
    ∧ create_prototype_omitted exClient (serverConst okUuidResp) "Person"
      = Except.ok (Json.str "X")
    ∧ create_node_with_document_omitted exClient (serverConst okUuidResp) "Doc"
      = Except.ok (Json.str "X") := by
  apply omitted_optionals_defaults <;> first | rfl | decide

/-- Claim C9: the methods returning no value (add_association,
update_node_embedding, register_prototype) still parse the response body
as JSON before discarding it, so a success-status response whose body is
not valid JSON makes them fail rather than succeed silently. -/
theorem void_methods_parse_json (c : KnowShowGoClient) (server : Server)
    (a b rel uuid pname : String) (strength : Rat) (options : Option Json)
    (r1 r2 r3 : HttpResponse)
    (hr1 : server (requestOf c "POST" "/api/associations" none
      (some (add_association_data a b rel strength))) = r1)
    (hs1 : r1.status < 400) (hb1 : r1.jsonBody = none)
    (hr2 : server (requestOf c "POST" ("/api/nodes/" ++ uuid ++ "/embedding") none none)
      = r2)
    (hs2 : r2.status < 400) (hb2 : r2.jsonBody = none)
    (hr3 : server (requestOf c "POST" "/api/orm/register" none
      (some (register_prototype_data pname options))) = r3)
    (hs3 : r3.status < 400) (hb3 : r3.jsonBody = none) :
    add_association c server a b rel strength
      = Except.error ClientError.jsonDecodeError
    ∧ update_node_embedding c server uuid = Except.error ClientError.jsonDecodeError
    ∧ register_prototype c server pname options
      = Except.error ClientError.jsonDecodeError := by
  refine ⟨?_, ?_, ?_⟩
  · unfold add_association
    rw [request_badjson c server _ _ _ _ r1 hr1 hs1 hb1]
  · unfold update_node_embedding
    rw [request_badjson c server _ _ _ _ r2 hr2 hs2 hb2]
  · unfold register_prototype
    rw [request_badjson c server _ _ _ _ r3 hr3 hs3 hb3]

/-- Concrete witness for claim C9: a mocked 200 response with an invalid
JSON body makes each void method fail with a JSON decoding error. -/
theorem void_methods_parse_json_witness :
    add_association exClient (serverConst badJsonResp) "a" "b" "relatesTo" 1
      = Except.error ClientError.jsonDecodeError
    ∧ update_node_embedding exClient (serverConst badJsonResp) "u"
      = Except.error ClientError.jsonDecodeError
    ∧ register_prototype exClient (serverConst badJsonResp) "Person" none
      = Except.error ClientError.jsonDecodeError := by
  apply void_methods_parse_json <;> first | rfl | decide

/-- Claim C10: create_instance sends the JSON body wrapping the
properties mapping under a single properties key, with the prototype name
carried only in the path /api/orm/name/create and not in the body, and
returns the full parsed response. -/
theorem create_instance_contract (c : KnowShowGoClient) (server : Server)
    (n : String) (props : Json) (r : HttpResponse) (j : Json)
    (hr : server (requestOf c "POST" ("/api/orm/" ++ n ++ "/create") none
      (some (Json.obj [("properties", props)]))) = r)
    (hs : r.status < 400) (hb : r.jsonBody = some j) :
    create_instance_data props = Json.obj [("properties", props)]
    ∧ create_instance c server n props = Except.ok j := by
  refine ⟨rfl, ?_⟩
  have hr2 : server (requestOf c "POST" ("/api/orm/" ++ n ++ "/create") none
      (some (create_instance_data props))) = r := hr
  exact request_ok c server _ _ _ _ r j hr2 hs hb

/-- Concrete witness for claim C10: a concrete create_instance call
succeeds and returns the mocked full response body. -/
theorem create_instance_contract_witness :
    create_instance_data (Json.obj [("age", Json.num 3)])
      = Json.obj [("properties", Json.obj [("age", Json.num 3)])]
    ∧ create_instance exClient (serverConst okEmptyResp) "Person"
      (Json.obj [("age", Json.num 3)]) = Except.ok (Json.obj []) := by
  apply create_instance_contract <;> first | rfl | decide
